import Mathlib

/-!
Verification of the `discord/asset.py` module: the `Asset` value type, its
factory constructors (`_from_avatar`, `_from_icon`, `_from_cover_image`,
`_from_guild_image`, `_from_guild_icon`, `_from_sticker_url`, `_from_emoji`),
its derived behaviours (`__str__`, `__len__`, `__bool__`, `__eq__`, `__ne__`,
`__hash__`) and the `read`/`save` operations.

Python exceptions are modelled with `Except`; Python `None` with `Option`;
bytes with `List Nat`.  The connection-state collaborator carries its
`get_from_cdn` fetch capability as a function field, so theorems quantified
over all states show independence from network behaviour.
-/

set_option maxHeartbeats 1000000

namespace DiscordAsset

/-- Error kinds raised by the module.  In the source, `InvalidArgument` and the
bare `DiscordException` are distinct exception classes; transport failures
(`HTTPException`, `NotFound`) originate from the collaborator. -/
inductive AssetError where
  | InvalidArgument (msg : String)
  | DiscordException (msg : String)
  | HTTPException
  | NotFound
deriving DecidableEq, Repr

/-- The HTTP collaborator: `http.get_from_cdn(url)` fetches bytes, and may
fail with a transport error which the module propagates unchanged. -/
structure HTTPClient where
  get_from_cdn : String → Except AssetError (List Nat)

/-- The opaque connection-state context (`self._state` in the source). -/
structure ConnectionState where
  http : HTTPClient

/-- `VALID_STATIC_FORMATS = frozenset({"jpeg", "jpg", "webp", "png"})`. -/
def VALID_STATIC_FORMATS : List String := ["jpeg", "jpg", "webp", "png"]

/-- `VALID_AVATAR_FORMATS = VALID_STATIC_FORMATS | {"gif"}`. -/
def VALID_AVATAR_FORMATS : List String := VALID_STATIC_FORMATS ++ ["gif"]

/-- Modelled from the spec: `utils.valid_icon_size` lives in the `utils`
module, which is not under src/; per the spec a size is valid exactly when it
is a power of two within [16, 4096] (2^12 = 4096, so the exponent is below 13). -/
def valid_icon_size (size : Nat) : Bool :=
  decide (16 ≤ size ∧ size ≤ 4096 ∧ ∃ k, k < 13 ∧ size = 2 ^ k)

/-- The `Asset` value: `state` is `self._state` (the optional context) and
`url` is `self._url` (the optional path+query fragment). -/
structure Asset where
  state : Option ConnectionState
  url : Option String

/-- `Asset.BASE = 'https://cdn.discordapp.com'`. -/
def Asset.BASE : String := "https://cdn.discordapp.com"

/-- Python truthiness of an optional string: `None` and `''` are falsy. -/
def truthyStr : Option String → Bool
  | none => false
  | some s => s ≠ ""

/-- The user collaborator consumed by `_from_avatar`: an id, an optional
avatar hash, and a fallback URL asset used when no custom avatar is set. -/
structure User where
  id : Nat
  avatar : Option String
  default_avatar_url : Asset

/-- Modelled from the spec: per the glossary an animated source is one
"whose image hash encodes animation (platform convention: hash prefixed to
indicate animation)" -- the hash starts with the marker characters `a_`. -/
def animatedHash (h : String) : Bool :=
  h.data.take 2 == "a_".data

/-- Modelled from the spec: the user class is not under src/; the predicate
holds exactly when an avatar hash is set and carries the animation marker. -/
def User.is_avatar_animated (u : User) : Bool :=
  match u.avatar with
  | none => false
  | some h => animatedHash h

/-- The object collaborator consumed by `_from_icon`: an id and an optional
icon hash. -/
structure IconObject where
  id : Nat
  icon : Option String

/-- The object collaborator consumed by `_from_cover_image`. -/
structure CoverObject where
  id : Nat
  cover_image : Option String

/-- The guild collaborator consumed by `_from_guild_icon`. -/
structure Guild where
  id : Nat
  icon : Option String

/-- Modelled from the spec: the guild class is not under src/; same
hash-marker convention as `User.is_avatar_animated`. -/
def Guild.is_icon_animated (g : Guild) : Bool :=
  match g.icon with
  | none => false
  | some h => animatedHash h

/-- The sticker collaborator consumed by `_from_sticker_url`. -/
structure Sticker where
  id : Nat
  image : String

/-- The emoji collaborator consumed by `_from_emoji`: `animated` is a plain
data attribute of the emoji. -/
structure Emoji where
  id : Nat
  animated : Bool

/-- The guard `format is not None and format not in VALID_AVATAR_FORMATS`
shared by the avatar, guild-icon and emoji constructors. -/
def bad_optional_format (format : Option String) : Bool :=
  match format with
  | some f => f ∉ VALID_AVATAR_FORMATS
  | none => false

/-- `Asset._from_avatar`: validates size, the optional requested format, the
gif/animation combination and the static format in that order, falls back to
`user.default_avatar_url` when no custom avatar is set, resolves the final
format, and builds `/avatars/{user.id}/{user.avatar}.{format}?size={size}`. -/
def Asset.from_avatar (state : Option ConnectionState) (user : User)
    (format : Option String := none) (static_format : String := "webp")
    (size : Nat := 1024) : Except AssetError Asset :=
  if ¬ valid_icon_size size then
    .error (.InvalidArgument "size must be a power of 2 between 16 and 4096")
  else if bad_optional_format format then
    .error (.InvalidArgument "format must be None or one of VALID_AVATAR_FORMATS")
  else if format = some "gif" ∧ ¬ user.is_avatar_animated then
    .error (.InvalidArgument "non animated avatars do not support gif format")
  else if static_format ∉ VALID_STATIC_FORMATS then
    .error (.InvalidArgument "static_format must be one of VALID_STATIC_FORMATS")
  else
    match user.avatar with
    | none => .ok user.default_avatar_url
    | some av =>
      let fmt := match format with
        | none => if user.is_avatar_animated then "gif" else static_format
        | some f => f
      .ok ⟨state, some ("/avatars/" ++ toString user.id ++ "/" ++ av ++ "."
            ++ fmt ++ "?size=" ++ toString size)⟩

/-- `Asset._from_icon`: returns an empty asset when no icon is set (before
any validation), otherwise validates size and format and builds
`/{path}-icons/{object.id}/{object.icon}.{format}?size={size}`. -/
def Asset.from_icon (state : Option ConnectionState) (object : IconObject)
    (path : String) (format : String := "webp") (size : Nat := 1024) :
    Except AssetError Asset :=
  match object.icon with
  | none => .ok ⟨state, none⟩
  | some ic =>
    if ¬ valid_icon_size size then
      .error (.InvalidArgument "size must be a power of 2 between 16 and 4096")
    else if format ∉ VALID_STATIC_FORMATS then
      .error (.InvalidArgument "format must be None or one of VALID_STATIC_FORMATS")
    else
      .ok ⟨state, some ("/" ++ path ++ "-icons/" ++ toString object.id ++ "/"
            ++ ic ++ "." ++ format ++ "?size=" ++ toString size)⟩

/-- `Asset._from_cover_image`: returns an empty asset when no cover image is
set (before any validation), otherwise validates size and format and builds
`/app-assets/{obj.id}/store/{obj.cover_image}.{format}?size={size}`. -/
def Asset.from_cover_image (state : Option ConnectionState) (obj : CoverObject)
    (format : String := "webp") (size : Nat := 1024) : Except AssetError Asset :=
  match obj.cover_image with
  | none => .ok ⟨state, none⟩
  | some cv =>
    if ¬ valid_icon_size size then
      .error (.InvalidArgument "size must be a power of 2 between 16 and 4096")
    else if format ∉ VALID_STATIC_FORMATS then
      .error (.InvalidArgument "format must be None or one of VALID_STATIC_FORMATS")
    else
      .ok ⟨state, some ("/app-assets/" ++ toString obj.id ++ "/store/" ++ cv
            ++ "." ++ format ++ "?size=" ++ toString size)⟩

/-- `Asset._from_guild_image`: validates size and format first, returns an
empty asset when the hash is absent, otherwise builds
`/{key}/{id}/{hash}.{format}?size={size}`. -/
def Asset.from_guild_image (state : Option ConnectionState) (id : Nat)
    (hash : Option String) (key : String) (format : String := "webp")
    (size : Nat := 1024) : Except AssetError Asset :=
  if ¬ valid_icon_size size then
    .error (.InvalidArgument "size must be a power of 2 between 16 and 4096")
  else if format ∉ VALID_STATIC_FORMATS then
    .error (.InvalidArgument "format must be one of VALID_STATIC_FORMATS")
  else
    match hash with
    | none => .ok ⟨state, none⟩
    | some h =>
      .ok ⟨state, some ("/" ++ key ++ "/" ++ toString id ++ "/" ++ h ++ "."
            ++ format ++ "?size=" ++ toString size)⟩

/-- `Asset._from_guild_icon`: same validation chain as `_from_avatar`,
returns an empty asset when the guild has no icon, resolves the final format
and builds `/icons/{guild.id}/{guild.icon}.{format}?size={size}`. -/
def Asset.from_guild_icon (state : Option ConnectionState) (guild : Guild)
    (format : Option String := none) (static_format : String := "webp")
    (size : Nat := 1024) : Except AssetError Asset :=
  if ¬ valid_icon_size size then
    .error (.InvalidArgument "size must be a power of 2 between 16 and 4096")
  else if bad_optional_format format then
    .error (.InvalidArgument "format must be one of VALID_AVATAR_FORMATS")
  else if format = some "gif" ∧ ¬ guild.is_icon_animated then
    .error (.InvalidArgument "non animated guild icons do not support gif format")
  else if static_format ∉ VALID_STATIC_FORMATS then
    .error (.InvalidArgument "static_format must be one of VALID_STATIC_FORMATS")
  else
    match guild.icon with
    | none => .ok ⟨state, none⟩
    | some ic =>
      let fmt := match format with
        | none => if guild.is_icon_animated then "gif" else static_format
        | some f => f
      .ok ⟨state, some ("/icons/" ++ toString guild.id ++ "/" ++ ic ++ "."
            ++ fmt ++ "?size=" ++ toString size)⟩

/-- `Asset._from_sticker_url`: validates size and builds
`/stickers/{sticker.id}/{sticker.image}.png?size={size}`. -/
def Asset.from_sticker_url (state : Option ConnectionState) (sticker : Sticker)
    (size : Nat := 1024) : Except AssetError Asset :=
  if ¬ valid_icon_size size then
    .error (.InvalidArgument "size must be a power of 2 between 16 and 4096")
  else
    .ok ⟨state, some ("/stickers/" ++ toString sticker.id ++ "/"
          ++ sticker.image ++ ".png?size=" ++ toString size)⟩

/-- `Asset._from_emoji`: validates the optional requested format, the
gif/animation combination and the static format, resolves the final format
and builds `/emojis/{emoji.id}.{format}` (no size parameter). -/
def Asset.from_emoji (state : Option ConnectionState) (emoji : Emoji)
    (format : Option String := none) (static_format : String := "png") :
    Except AssetError Asset :=
  if bad_optional_format format then
    .error (.InvalidArgument "format must be None or one of VALID_AVATAR_FORMATS")
  else if format = some "gif" ∧ ¬ emoji.animated then
    .error (.InvalidArgument "non animated emojis do not support gif format")
  else if static_format ∉ VALID_STATIC_FORMATS then
    .error (.InvalidArgument "static_format must be one of VALID_STATIC_FORMATS")
  else
    let fmt := match format with
      | none => if emoji.animated then "gif" else static_format
      | some f => f
    .ok ⟨state, some ("/emojis/" ++ toString emoji.id ++ "." ++ fmt)⟩

/-- `Asset.__str__`: `self.BASE + self._url if self._url is not None else ''`. -/
def Asset.toStr (a : Asset) : String :=
  match a.url with
  | some u => Asset.BASE ++ u
  | none => ""

/-- `Asset.__len__`: the length of `BASE + url` when `self._url` is truthy,
else 0.  Note the truthiness test: an empty-string url yields 0. -/
def Asset.length (a : Asset) : Nat :=
  if truthyStr a.url then (Asset.BASE ++ a.url.getD "").length else 0

/-- `Asset.__bool__`: `self._url is not None` (an identity test against
`None`, not a truthiness test, so an empty-string url is still `True`). -/
def Asset.toBool (a : Asset) : Bool :=
  a.url.isSome

/-- A Python value an `Asset` may be compared against: either another
`Asset` or some non-`Asset` object. -/
inductive PyValue where
  | asset (a : Asset)
  | pyNone
  | pyInt (n : Int)
  | pyStr (s : String)

/-- Whether a `PyValue` is an `Asset` instance (`isinstance(other, Asset)`). -/
def PyValue.isAsset : PyValue → Bool
  | .asset _ => true
  | _ => false

/-- `Asset.__eq__`: `isinstance(other, Asset) and self._url == other._url`;
returns `False` (never `NotImplemented`, never an exception) on non-`Asset`
operands, and never consults `_state`. -/
def Asset.eq_py (a : Asset) (other : PyValue) : Bool :=
  match other with
  | .asset b => a.url == b.url
  | _ => false

/-- `Asset.__ne__`: `not self.__eq__(other)`. -/
def Asset.ne_py (a : Asset) (other : PyValue) : Bool :=
  ! a.eq_py other

/-- `Asset.__hash__`: `hash(self._url)`. -/
def Asset.hashValue (a : Asset) : UInt64 :=
  hash a.url

/-- `Asset.read`: raises the generic `DiscordException` when `self._url` is
falsy (absent or empty) or when `self._state` is absent, and only otherwise
performs the network fetch `self._state.http.get_from_cdn(BASE + url)`. -/
def Asset.read (a : Asset) : Except AssetError (List Nat) :=
  if ¬ truthyStr a.url then
    .error (.DiscordException "Invalid asset (no URL provided)")
  else
    match a.state with
    | none => .error (.DiscordException "Invalid state (no ConnectionState provided)")
    | some st => st.http.get_from_cdn (Asset.BASE ++ a.url.getD "")

/-- The destination argument of `Asset.save`: either an `io.IOBase` object
(with its `writable()` answer) or a filesystem path. -/
inductive SaveDest where
  | iobase (writable : Bool)
  | path (p : String)
deriving DecidableEq, Repr

/-- What `Asset.save` did to its destination: wrote the bytes into the
already-open sink (recording whether it then sought to the start), or passed
the destination to `open(fp, 'wb')` and wrote the bytes to that file. -/
inductive SaveAction where
  | wrote_sink (data : List Nat) (sought_to_start : Bool)
  | opened_path (fp : SaveDest) (data : List Nat)
deriving DecidableEq, Repr

/-- `Asset.save`: calls `read()` first and propagates its error; on success,
if the destination is an `io.IOBase` instance reporting `writable()`, writes
into it (seeking to the start when `seek_begin`), otherwise passes the
destination to `open(fp, 'wb')` and writes there; either way returns the
number of bytes written. -/
def Asset.save (a : Asset) (fp : SaveDest) (seek_begin : Bool := true) :
    Except AssetError (SaveAction × Nat) :=
  match a.read with
  | .error e => .error e
  | .ok data =>
    match fp with
    | .iobase true => .ok (.wrote_sink data seek_begin, data.length)
    | _ => .ok (.opened_path fp data, data.length)

/-- C1: the avatar factory with userId=123, hash="abc" (a non-animated
source), format unspecified and size=256 yields urlPath
`/avatars/123/abc.webp?size=256` and full URL
`https://cdn.discordapp.com/avatars/123/abc.webp?size=256`; the emoji
factory with emojiId=55, an animated source and format unspecified yields
urlPath `/emojis/55.gif` with no size parameter. -/
theorem claim_C1_url_templates :
    Asset.from_avatar none ⟨123, some "abc", ⟨none, none⟩⟩ none "webp" 256
      = .ok ⟨none, some "/avatars/123/abc.webp?size=256"⟩
    ∧ Asset.toStr ⟨none, some "/avatars/123/abc.webp?size=256"⟩
      = "https://cdn.discordapp.com/avatars/123/abc.webp?size=256"
    ∧ Asset.from_emoji none ⟨55, true⟩ none "png"
      = .ok ⟨none, some "/emojis/55.gif"⟩ := by
  refine ⟨?_, ?_, ?_⟩ <;> rfl

/-- C4: two Assets are equal exactly when their urlPath fields are equal --
the context field is never compared (both sides range over arbitrary states)
-- and equal urlPaths yield equal hash values. -/
theorem claim_C4_eq_iff_url (a b : Asset) :
    (a.eq_py (.asset b) = true ↔ a.url = b.url)
    ∧ (a.url = b.url → a.hashValue = b.hashValue) := by
  constructor
  · simp [Asset.eq_py]
  · intro h
    simp [Asset.hashValue, h]

/-- Witness for C4 at two concrete Assets sharing a urlPath but differing in
context (one has none, the other a live connection state). -/
theorem claim_C4_eq_iff_url_witness :
    Asset.eq_py ⟨none, some "/a"⟩ (.asset ⟨some ⟨⟨fun _ => .error .NotFound⟩⟩, some "/a"⟩) = true
    ∧ Asset.hashValue ⟨none, some "/a"⟩
        = Asset.hashValue ⟨some ⟨⟨fun _ => .error .NotFound⟩⟩, some "/a"⟩ :=
  ⟨(claim_C4_eq_iff_url ⟨none, some "/a"⟩ ⟨some ⟨⟨fun _ => .error .NotFound⟩⟩, some "/a"⟩).1.mpr rfl,
   (claim_C4_eq_iff_url ⟨none, some "/a"⟩ ⟨some ⟨⟨fun _ => .error .NotFound⟩⟩, some "/a"⟩).2 rfl⟩

/-- C10: comparing an Asset against any non-Asset value yields `False` for
equality and `True` for inequality (the total function returns a boolean,
never raising and never deferring to the other operand), and inequality is
always the pointwise negation of equality. -/
theorem claim_C10_non_asset_eq (a : Asset) (x : PyValue) :
    (x.isAsset = false → a.eq_py x = false ∧ a.ne_py x = true)
    ∧ a.ne_py x = ! a.eq_py x := by
  refine ⟨?_, rfl⟩
  intro h
  cases x <;> simp_all [Asset.eq_py, Asset.ne_py, PyValue.isAsset]

/-- Witness for C10 at a concrete Asset compared against the integer 5. -/
theorem claim_C10_non_asset_eq_witness :
    Asset.eq_py ⟨none, some "/a"⟩ (.pyInt 5) = false
    ∧ Asset.ne_py ⟨none, some "/a"⟩ (.pyInt 5) = true
    ∧ Asset.ne_py ⟨none, some "/a"⟩ (.pyInt 5) = ! Asset.eq_py ⟨none, some "/a"⟩ (.pyInt 5) :=
  ⟨((claim_C10_non_asset_eq ⟨none, some "/a"⟩ (.pyInt 5)).1 rfl).1,
   ((claim_C10_non_asset_eq ⟨none, some "/a"⟩ (.pyInt 5)).1 rfl).2,
   (claim_C10_non_asset_eq ⟨none, some "/a"⟩ (.pyInt 5)).2⟩

/-- C5 counterexample: an Asset constructed with an empty-string urlPath is
truthy (`__bool__` tests `is not None`), although its urlPath is not
non-empty (it is falsy to `read`/`__len__`), refuting "boolean presence is
true exactly when urlPath is non-empty". -/
theorem claim_C5_counterexample :
    Asset.toBool ⟨none, some ""⟩ = true
    ∧ truthyStr (Asset.mk none (some "")).url = false := by
  exact ⟨rfl, by decide⟩

/-- C5 (amended): boolean presence is true exactly when urlPath is present
(not absent) -- even a present-but-empty urlPath is truthy; when urlPath is
absent, string conversion returns the empty string and length returns 0;
when urlPath is present, string conversion returns the fixed base origin
concatenated with urlPath. -/
theorem claim_C5_presence_amended (a : Asset) :
    (a.toBool = true ↔ a.url ≠ none)
    ∧ (a.url = none → a.toStr = "" ∧ a.length = 0)
    ∧ (∀ u, a.url = some u → a.toStr = Asset.BASE ++ u) := by
  refine ⟨?_, ?_, ?_⟩
  · simp [Asset.toBool, Option.isSome_iff_ne_none]
  · intro h
    simp [Asset.toStr, Asset.length, truthyStr, h]
  · intro u h
    simp [Asset.toStr, h]

/-- Witness for C5 (amended) at the empty Asset and at a concrete URL. -/
theorem claim_C5_presence_amended_witness :
    Asset.toStr ⟨none, none⟩ = ""
    ∧ Asset.length ⟨none, none⟩ = 0
    ∧ Asset.toStr ⟨none, some "/a"⟩ = Asset.BASE ++ "/a" :=
  ⟨((claim_C5_presence_amended ⟨none, none⟩).2.1 rfl).1,
   ((claim_C5_presence_amended ⟨none, none⟩).2.1 rfl).2,
   (claim_C5_presence_amended ⟨none, some "/a"⟩).2.2 "/a" rfl⟩

/-- C6: `read` fails with the generic `DiscordException` kind when the
urlPath is absent (or empty) or when the context is absent, for every
connection state -- in particular for states whose fetch function would
return anything, so no network call is consulted; the two causes carry
different messages but the same error kind; and the fetch result passes
through exactly when both urlPath and context are present. -/
theorem claim_C6_read_preconditions (a : Asset) :
    (a.url = none → a.read = .error (.DiscordException "Invalid asset (no URL provided)"))
    ∧ (truthyStr a.url = false →
        a.read = .error (.DiscordException "Invalid asset (no URL provided)"))
    ∧ (truthyStr a.url = true → a.state = none →
        a.read = .error (.DiscordException "Invalid state (no ConnectionState provided)"))
    ∧ ("Invalid asset (no URL provided)" ≠ "Invalid state (no ConnectionState provided)")
    ∧ (∀ st, a.state = some st → truthyStr a.url = true →
        a.read = st.http.get_from_cdn (Asset.BASE ++ a.url.getD "")) := by
  refine ⟨?_, ?_, ?_, ?_, ?_⟩
  · intro h
    simp [Asset.read, h, truthyStr]
  · intro h
    simp [Asset.read, h]
  · intro h1 h2
    simp [Asset.read, h1, h2]
  · decide
  · intro st h1 h2
    simp [Asset.read, h1, h2]

/-- Witness for C6: an Asset with no URL but a live fetcher still fails with
the no-URL message; an Asset with a URL but no context fails with the
no-context message; with both present the fetch result passes through. -/
theorem claim_C6_read_preconditions_witness :
    Asset.read ⟨some ⟨⟨fun _ => .ok [1, 2, 3]⟩⟩, none⟩
      = .error (.DiscordException "Invalid asset (no URL provided)")
    ∧ Asset.read ⟨none, some "/x"⟩
      = .error (.DiscordException "Invalid state (no ConnectionState provided)")
    ∧ Asset.read ⟨some ⟨⟨fun _ => .ok [4]⟩⟩, some "/x"⟩ = .ok [4] :=
  ⟨(claim_C6_read_preconditions ⟨some ⟨⟨fun _ => .ok [1, 2, 3]⟩⟩, none⟩).1 rfl,
   (claim_C6_read_preconditions ⟨none, some "/x"⟩).2.2.1 (by decide) rfl,
   (claim_C6_read_preconditions ⟨some ⟨⟨fun _ => .ok [4]⟩⟩, some "/x"⟩).2.2.2.2
     ⟨⟨fun _ => .ok [4]⟩⟩ rfl (by decide)⟩

/-- A size that is below 16, above 4096, or not a power of two fails the
`valid_icon_size` check. -/
theorem valid_icon_size_eq_false_of_invalid (size : Nat)
    (h : size < 16 ∨ 4096 < size ∨ ∀ k : Nat, size ≠ 2 ^ k) :
    valid_icon_size size = false := by
  unfold valid_icon_size
  rw [decide_eq_false_iff_not]
  rintro ⟨h1, h2, k, hk, rfl⟩
  rcases h with h | h | h
  · omega
  · omega
  · exact h k rfl

/-- C2 counterexample: size 7 is not a power of two, yet the icon factory,
called on an object with no icon set, succeeds with an empty Asset instead
of failing with InvalidArgument -- the no-image check precedes validation. -/
theorem claim_C2_counterexample :
    valid_icon_size 7 = false
    ∧ Asset.from_icon none ⟨10, none⟩ "guild" "webp" 7 = .ok ⟨none, none⟩ := by
  exact ⟨by decide, by rfl⟩

/-- C2 (amended): for every size that is not a power of two or lies outside
[16, 4096], the avatar, guild-image, guild-icon and sticker constructors
fail with InvalidArgument regardless of the other arguments; the icon and
cover-image constructors fail likewise when the source object has an image
set, but when it reports no image set they return an empty Asset without
validating the size. -/
theorem claim_C2_invalid_size_amended (size : Nat)
    (h : size < 16 ∨ 4096 < size ∨ ∀ k : Nat, size ≠ 2 ^ k)
    (state : Option ConnectionState) :
    (∀ (user : User) (format : Option String) (static_format : String),
       Asset.from_avatar state user format static_format size
         = .error (.InvalidArgument "size must be a power of 2 between 16 and 4096"))
    ∧ (∀ (id : Nat) (hash : Option String) (key format : String),
       Asset.from_guild_image state id hash key format size
         = .error (.InvalidArgument "size must be a power of 2 between 16 and 4096"))
    ∧ (∀ (guild : Guild) (format : Option String) (static_format : String),
       Asset.from_guild_icon state guild format static_format size
         = .error (.InvalidArgument "size must be a power of 2 between 16 and 4096"))
    ∧ (∀ (sticker : Sticker),
       Asset.from_sticker_url state sticker size
         = .error (.InvalidArgument "size must be a power of 2 between 16 and 4096"))
    ∧ (∀ (object : IconObject) (path format : String), object.icon ≠ none →
       Asset.from_icon state object path format size
         = .error (.InvalidArgument "size must be a power of 2 between 16 and 4096"))
    ∧ (∀ (object : IconObject) (path format : String), object.icon = none →
       Asset.from_icon state object path format size = .ok ⟨state, none⟩)
    ∧ (∀ (obj : CoverObject) (format : String), obj.cover_image ≠ none →
       Asset.from_cover_image state obj format size
         = .error (.InvalidArgument "size must be a power of 2 between 16 and 4096"))
    ∧ (∀ (obj : CoverObject) (format : String), obj.cover_image = none →
       Asset.from_cover_image state obj format size = .ok ⟨state, none⟩) := by
  have hv := valid_icon_size_eq_false_of_invalid size h
  refine ⟨?_, ?_, ?_, ?_, ?_, ?_, ?_, ?_⟩
  · intro user format static_format
    simp [Asset.from_avatar, hv]
  · intro id hash key format
    simp [Asset.from_guild_image, hv]
  · intro guild format static_format
    simp [Asset.from_guild_icon, hv]
  · intro sticker
    simp [Asset.from_sticker_url, hv]
  · intro object path format hicon
    rcases hi : object.icon with _ | ic
    · exact absurd hi hicon
    · simp [Asset.from_icon, hi, hv]
  · intro object path format hicon
    simp [Asset.from_icon, hicon]
  · intro obj format hcover
    rcases hc : obj.cover_image with _ | cv
    · exact absurd hc hcover
    · simp [Asset.from_cover_image, hc, hv]
  · intro obj format hcover
    simp [Asset.from_cover_image, hcover]

/-- Witness for C2 (amended) at size 7 across representative constructors. -/
theorem claim_C2_invalid_size_amended_witness :
    Asset.from_avatar none ⟨1, some "h", ⟨none, none⟩⟩ none "webp" 7
      = .error (.InvalidArgument "size must be a power of 2 between 16 and 4096")
    ∧ Asset.from_sticker_url none ⟨2, "img"⟩ 7
      = .error (.InvalidArgument "size must be a power of 2 between 16 and 4096")
    ∧ Asset.from_icon none ⟨3, some "ic"⟩ "guild" "webp" 7
      = .error (.InvalidArgument "size must be a power of 2 between 16 and 4096")
    ∧ Asset.from_icon none ⟨3, none⟩ "guild" "webp" 7 = .ok ⟨none, none⟩ :=
  ⟨(claim_C2_invalid_size_amended 7 (Or.inl (by decide)) none).1 _ none "webp",
   (claim_C2_invalid_size_amended 7 (Or.inl (by decide)) none).2.2.2.1 ⟨2, "img"⟩,
   (claim_C2_invalid_size_amended 7 (Or.inl (by decide)) none).2.2.2.2.1 ⟨3, some "ic"⟩
     "guild" "webp" (by simp),
   (claim_C2_invalid_size_amended 7 (Or.inl (by decide)) none).2.2.2.2.2.1 ⟨3, none⟩
     "guild" "webp" rfl⟩

/-- The requested format "gif" passes the avatar-format membership guard. -/
theorem bad_optional_format_gif : bad_optional_format (some "gif") = false := by
  decide

/-- C3: for the avatar, guild-icon and emoji constructors, requesting format
gif on a non-animated source fails with InvalidArgument (whatever the
static_format argument), while the same request on an animated source
succeeds and the resulting URL uses format gif. -/
theorem claim_C3_gif_animation (state : Option ConnectionState) (size : Nat)
    (static_format : String)
    (hsize : valid_icon_size size = true)
    (hsf : static_format ∈ VALID_STATIC_FORMATS) :
    (∀ (u : User), u.is_avatar_animated = false → ∀ (sf : String),
       Asset.from_avatar state u (some "gif") sf size
         = .error (.InvalidArgument "non animated avatars do not support gif format"))
    ∧ (∀ (u : User) (h : String), u.avatar = some h → animatedHash h = true →
       Asset.from_avatar state u (some "gif") static_format size
         = .ok ⟨state, some ("/avatars/" ++ toString u.id ++ "/" ++ h
             ++ "." ++ "gif" ++ "?size=" ++ toString size)⟩)
    ∧ (∀ (g : Guild), g.is_icon_animated = false → ∀ (sf : String),
       Asset.from_guild_icon state g (some "gif") sf size
         = .error (.InvalidArgument "non animated guild icons do not support gif format"))
    ∧ (∀ (g : Guild) (h : String), g.icon = some h → animatedHash h = true →
       Asset.from_guild_icon state g (some "gif") static_format size
         = .ok ⟨state, some ("/icons/" ++ toString g.id ++ "/" ++ h
             ++ "." ++ "gif" ++ "?size=" ++ toString size)⟩)
    ∧ (∀ (e : Emoji), e.animated = false → ∀ (sf : String),
       Asset.from_emoji state e (some "gif") sf
         = .error (.InvalidArgument "non animated emojis do not support gif format"))
    ∧ (∀ (e : Emoji), e.animated = true →
       Asset.from_emoji state e (some "gif") static_format
         = .ok ⟨state, some ("/emojis/" ++ toString e.id ++ "." ++ "gif")⟩) := by
  refine ⟨?_, ?_, ?_, ?_, ?_, ?_⟩
  · intro u hanim sf
    simp [Asset.from_avatar, hsize, hanim, bad_optional_format_gif]
  · intro u h hav hanim
    have hu : u.is_avatar_animated = true := by
      simp [User.is_avatar_animated, hav, hanim]
    simp [Asset.from_avatar, hsize, hu, hsf, hav, bad_optional_format_gif]
  · intro g hanim sf
    simp [Asset.from_guild_icon, hsize, hanim, bad_optional_format_gif]
  · intro g h hic hanim
    have hg : g.is_icon_animated = true := by
      simp [Guild.is_icon_animated, hic, hanim]
    simp [Asset.from_guild_icon, hsize, hg, hsf, hic, bad_optional_format_gif]
  · intro e hanim sf
    simp [Asset.from_emoji, hanim, bad_optional_format_gif]
  · intro e hanim
    simp [Asset.from_emoji, hanim, hsf, bad_optional_format_gif]

/-- Witness for C3 at concrete non-animated ("abc") and animated ("a_xyz")
sources, size 256, default static formats. -/
theorem claim_C3_gif_animation_witness :
    Asset.from_avatar none ⟨1, some "abc", ⟨none, none⟩⟩ (some "gif") "webp" 256
      = .error (.InvalidArgument "non animated avatars do not support gif format")
    ∧ Asset.from_avatar none ⟨123, some "a_xyz", ⟨none, none⟩⟩ (some "gif") "webp" 256
      = .ok ⟨none, some "/avatars/123/a_xyz.gif?size=256"⟩
    ∧ Asset.from_guild_icon none ⟨7, some "a_g"⟩ (some "gif") "webp" 256
      = .ok ⟨none, some "/icons/7/a_g.gif?size=256"⟩
    ∧ Asset.from_emoji none ⟨55, false⟩ (some "gif") "png"
      = .error (.InvalidArgument "non animated emojis do not support gif format")
    ∧ Asset.from_emoji none ⟨55, true⟩ (some "gif") "png"
      = .ok ⟨none, some "/emojis/55.gif"⟩ := by
  refine ⟨?_, ?_, ?_, ?_, ?_⟩
  · exact (claim_C3_gif_animation none 256 "webp" (by decide) (by decide)).1
      ⟨1, some "abc", ⟨none, none⟩⟩ (by decide) "webp"
  · rw [(claim_C3_gif_animation none 256 "webp" (by decide) (by decide)).2.1
      ⟨123, some "a_xyz", ⟨none, none⟩⟩ "a_xyz" rfl (by decide)]
    rfl
  · rw [(claim_C3_gif_animation none 256 "webp" (by decide) (by decide)).2.2.2.1
      ⟨7, some "a_g"⟩ "a_g" rfl (by decide)]
    rfl
  · exact (claim_C3_gif_animation none 256 "webp" (by decide) (by decide)).2.2.2.2.1
      ⟨55, false⟩ rfl "png"
  · rw [(claim_C3_gif_animation none 256 "png" (by decide) (by decide)).2.2.2.2.2
      ⟨55, true⟩ rfl]
    rfl

/-- C7: when the source object reports no image set, the icon, cover-image,
guild-image and guild-icon constructors return an Asset with absent urlPath
(the icon and cover-image ones even without any validation), while the
avatar constructor instead returns the caller-supplied default avatar URL. -/
theorem claim_C7_no_image (state : Option ConnectionState) (size : Nat)
    (format : Option String) (static_format : String)
    (hsize : valid_icon_size size = true)
    (hsf : static_format ∈ VALID_STATIC_FORMATS)
    (hfmt : bad_optional_format format = false)
    (hgif : format ≠ some "gif") :
    (∀ (object : IconObject) (path f : String) (s : Nat), object.icon = none →
       Asset.from_icon state object path f s = .ok ⟨state, none⟩)
    ∧ (∀ (obj : CoverObject) (f : String) (s : Nat), obj.cover_image = none →
       Asset.from_cover_image state obj f s = .ok ⟨state, none⟩)
    ∧ (∀ (id : Nat) (key f : String), f ∈ VALID_STATIC_FORMATS →
       Asset.from_guild_image state id none key f size = .ok ⟨state, none⟩)
    ∧ (∀ (g : Guild), g.icon = none →
       Asset.from_guild_icon state g format static_format size = .ok ⟨state, none⟩)
    ∧ (∀ (u : User), u.avatar = none →
       Asset.from_avatar state u format static_format size = .ok u.default_avatar_url) := by
  refine ⟨?_, ?_, ?_, ?_, ?_⟩
  · intro object path f s hicon
    simp [Asset.from_icon, hicon]
  · intro obj f s hcover
    simp [Asset.from_cover_image, hcover]
  · intro id key f hf
    simp [Asset.from_guild_image, hsize, hf]
  · intro g hicon
    simp [Asset.from_guild_icon, hsize, hsf, hfmt, hicon]
    exact fun h1 => absurd h1 hgif
  · intro u hav
    simp [Asset.from_avatar, hsize, hsf, hfmt, hav]
    exact fun h1 => absurd h1 hgif

/-- Witness for C7 at concrete image-less sources: each non-avatar factory
yields an empty Asset, the avatar factory yields the supplied default. -/
theorem claim_C7_no_image_witness :
    Asset.from_icon none ⟨3, none⟩ "guild" "webp" 1024 = .ok ⟨none, none⟩
    ∧ Asset.from_cover_image none ⟨4, none⟩ "webp" 1024 = .ok ⟨none, none⟩
    ∧ Asset.from_guild_image none 9 none "banners" "webp" 1024 = .ok ⟨none, none⟩
    ∧ Asset.from_guild_icon none ⟨7, none⟩ none "webp" 1024 = .ok ⟨none, none⟩
    ∧ Asset.from_avatar none ⟨1, none, ⟨none, some "/default.png"⟩⟩ none "webp" 1024
      = .ok ⟨none, some "/default.png"⟩ :=
  ⟨(claim_C7_no_image none 1024 none "webp" (by decide) (by decide) rfl (by decide)).1
     ⟨3, none⟩ "guild" "webp" 1024 rfl,
   (claim_C7_no_image none 1024 none "webp" (by decide) (by decide) rfl (by decide)).2.1
     ⟨4, none⟩ "webp" 1024 rfl,
   (claim_C7_no_image none 1024 none "webp" (by decide) (by decide) rfl (by decide)).2.2.1
     9 "banners" "webp" (by decide),
   (claim_C7_no_image none 1024 none "webp" (by decide) (by decide) rfl (by decide)).2.2.2.1
     ⟨7, none⟩ rfl,
   (claim_C7_no_image none 1024 none "webp" (by decide) (by decide) rfl (by decide)).2.2.2.2
     ⟨1, none, ⟨none, some "/default.png"⟩⟩ rfl⟩

/-- The bytes a completed `save` put into its destination. -/
def SaveAction.bytes : SaveAction → List Nat
  | .wrote_sink d _ => d
  | .opened_path _ d => d

/-- C8: `save` invokes `read` first and propagates its error unchanged --
the error result carries no write action, so nothing is written to the
destination; on success the bytes written are exactly the bytes `read`
returned and their count is the returned value. -/
theorem claim_C8_save_via_read (a : Asset) (fp : SaveDest) (sb : Bool) :
    (∀ e, a.read = .error e → a.save fp sb = .error e)
    ∧ (∀ data, a.read = .ok data →
        ∃ act, a.save fp sb = .ok (act, data.length)
          ∧ act.bytes = data) := by
  constructor
  · intro e he
    simp [Asset.save, he]
  · intro data hd
    rcases fp with w | p
    · cases w
      · exact ⟨.opened_path (.iobase false) data, by simp [Asset.save, hd], rfl⟩
      · exact ⟨.wrote_sink data sb, by simp [Asset.save, hd], rfl⟩
    · exact ⟨.opened_path (.path p) data, by simp [Asset.save, hd], rfl⟩

/-- Witness for C8: a URL-less Asset propagates the read error through
`save` to both destination shapes, and a fetchable Asset writes exactly the
fetched bytes and returns their count. -/
theorem claim_C8_save_via_read_witness :
    Asset.save ⟨none, none⟩ (.path "out.png") true
      = .error (.DiscordException "Invalid asset (no URL provided)")
    ∧ (∃ act, Asset.save ⟨some ⟨⟨fun _ => .ok [9, 8, 7]⟩⟩, some "/x"⟩ (.iobase true) true
        = .ok (act, 3) ∧ act.bytes = [9, 8, 7]) := by
  refine ⟨?_, ?_⟩
  · exact (claim_C8_save_via_read ⟨none, none⟩ (.path "out.png") true).1
      (.DiscordException "Invalid asset (no URL provided)") rfl
  · exact (claim_C8_save_via_read ⟨some ⟨⟨fun _ => .ok [9, 8, 7]⟩⟩, some "/x"⟩
      (.iobase true) true).2 [9, 8, 7] rfl

/-- C9: the destination is written as an open byte sink exactly when it is
an `io.IOBase` instance reporting `writable()`; a non-writable `io.IOBase`
is not rejected but falls through to the filesystem-path branch and is
itself passed to `open(fp, 'wb')`, as any plain path is. -/
theorem claim_C9_sink_dispatch (a : Asset) (sb : Bool) (data : List Nat)
    (h : a.read = .ok data) :
    a.save (.iobase true) sb = .ok (.wrote_sink data sb, data.length)
    ∧ a.save (.iobase false) sb = .ok (.opened_path (.iobase false) data, data.length)
    ∧ (∀ p, a.save (.path p) sb = .ok (.opened_path (.path p) data, data.length)) := by
  refine ⟨?_, ?_, ?_⟩
  · simp [Asset.save, h]
  · simp [Asset.save, h]
  · intro p
    simp [Asset.save, h]

/-- Witness for C9 at a concrete fetchable Asset: the writable sink gets the
write, the non-writable sink object and the plain path go to `open`. -/
theorem claim_C9_sink_dispatch_witness :
    Asset.save ⟨some ⟨⟨fun _ => .ok [5]⟩⟩, some "/x"⟩ (.iobase true) false
      = .ok (.wrote_sink [5] false, 1)
    ∧ Asset.save ⟨some ⟨⟨fun _ => .ok [5]⟩⟩, some "/x"⟩ (.iobase false) false
      = .ok (.opened_path (.iobase false) [5], 1)
    ∧ Asset.save ⟨some ⟨⟨fun _ => .ok [5]⟩⟩, some "/x"⟩ (.path "f.png") false
      = .ok (.opened_path (.path "f.png") [5], 1) :=
  ⟨(claim_C9_sink_dispatch ⟨some ⟨⟨fun _ => .ok [5]⟩⟩, some "/x"⟩ false [5] rfl).1,
   (claim_C9_sink_dispatch ⟨some ⟨⟨fun _ => .ok [5]⟩⟩, some "/x"⟩ false [5] rfl).2.1,
   (claim_C9_sink_dispatch ⟨some ⟨⟨fun _ => .ok [5]⟩⟩, some "/x"⟩ false [5] rfl).2.2 "f.png"⟩

end DiscordAsset
